import Mathlib

/-!
Verification of the simulation core of the RDproject tower-defense game.

The Python source is shallowly embedded over exact rationals (ℚ): Python
floats become ℚ, mutable objects become immutable records with explicit
state passing, and `math.hypot` becomes an explicit function argument
(see `hypotQ`).  Rendering (`draw`) methods are display-only and not
modelled.
-/

set_option maxRecDepth 100000

namespace RD

/-! ### Constants from settings.py -/

def FPS : ℚ := 60
def MAX_DIE_LEVEL : ℤ := 7
def BASE_FIRE_RATE : ℚ := 50
def WAVE_BASE_COUNT : ℤ := 25
def WAVE_GROWTH : ℤ := 1
def GRID_COLS : ℕ := 5
def GRID_ROWS : ℕ := 3

/-! ### Enemy (enemy.py, class Enemy)

Fields mirror `Enemy.__init__`.  The display-only `size` attribute is not
modelled.  Coordinates, HP, speed and timers are rationals.
-/

structure Enemy where
  path : List (ℚ × ℚ)
  hp : ℚ
  max_hp : ℚ
  speed : ℚ
  dead : Bool
  reached : Bool
  idx : ℕ
  x : ℚ
  y : ℚ
  money_drop : ℚ
  slow_ratio : ℚ
  slow_timer : ℚ
  carries_coin : Bool
  poison_timer : ℚ
  poison_dmg : ℚ
deriving DecidableEq

/-- `Enemy.__init__(path_points, hp, speed)`.  The constructor reads
`self.path[0]`; every caller passes a non-empty path, modelled with
`headD`. -/
def Enemy.init (path_points : List (ℚ × ℚ)) (hp speed : ℚ) : Enemy :=
  { path := path_points
    hp := hp
    max_hp := hp
    speed := speed
    dead := false
    reached := false
    idx := 0
    x := (path_points.headD (0, 0)).1
    y := (path_points.headD (0, 0)).2
    money_drop := 1
    slow_ratio := 1
    slow_timer := 0
    carries_coin := false
    poison_timer := 0
    poison_dmg := 0 }

/-- `Enemy.apply_slow(ratio, duration)` (enemy.py lines 33-35). -/
def Enemy.apply_slow (ratio duration : ℚ) (e : Enemy) : Enemy :=
  { e with slow_ratio := min e.slow_ratio ratio
           slow_timer := max e.slow_timer duration }

/-- `Enemy.apply_poison(dmg, duration)` (enemy.py lines 37-39). -/
def Enemy.apply_poison (dmg duration : ℚ) (e : Enemy) : Enemy :=
  { e with poison_dmg := max e.poison_dmg dmg
           poison_timer := max e.poison_timer duration }

/-- `Enemy.hit(dmg)` (enemy.py lines 41-44): subtract `dmg` from hp, set
`dead` once hp drops to 0 or below. -/
def Enemy.hit (dmg : ℚ) (e : Enemy) : Enemy :=
  let hp := e.hp - dmg
  if hp ≤ 0 ∧ e.dead = false then { e with hp := hp, dead := true }
  else { e with hp := hp }

/-- Model of `math.hypot` used by `Enemy.update` and the projectiles.  It is
exact on axis-aligned vectors (`hypot(d, 0) = |d|`, `hypot(0, d) = |d|`),
which are the only vectors the concrete scenarios below produce; every
theorem whose conclusion depends on off-axis distances instead quantifies
over an arbitrary hypot function. -/
def hypotQ (dx dy : ℚ) : ℚ :=
  if dx = 0 then |dy| else if dy = 0 then |dx| else max |dx| |dy|

/-- Movement part of `Enemy.update` (enemy.py lines 63-75): vector to the
next waypoint, effective step `speed * slow_ratio * speed_mult * zone_mult
* dt`, snap-and-advance when the step covers the remaining distance
(setting `reached` on the final waypoint), otherwise move along the
normalized direction. -/
def Enemy.move (hyp : ℚ → ℚ → ℚ) (dt sm zm : ℚ) (e : Enemy) : Enemy :=
  let t := e.path.getD (e.idx + 1) (0, 0)
  let dx := t.1 - e.x
  let dy := t.2 - e.y
  let dist := hyp dx dy
  let step := e.speed * e.slow_ratio * sm * zm * dt
  if step ≥ dist ∧ dist > 0 then
    let idx := e.idx + 1
    { e with x := t.1, y := t.2, idx := idx
             reached := if e.path.length ≤ idx + 1 then true else e.reached }
  else if dist > 0 then
    { e with x := e.x + dx / dist * step, y := e.y + dy / dist * step }
  else e

/-- `Enemy.update(dt, speed_mult, zone_mult)` (enemy.py lines 46-75).
The guard `self.idx >= len(self.path) - 1` is `path.length ≤ idx + 1` on
naturals.  The slow timer is decremented (resetting `slow_ratio` when it
expires), then the poison tick damages the entity and returns early if it
kills it, then the entity moves. -/
def Enemy.update (hyp : ℚ → ℚ → ℚ) (dt sm zm : ℚ) (e : Enemy) : Enemy :=
  if e.dead = true ∨ e.reached = true ∨ e.path.length ≤ e.idx + 1 then e
  else
    let e1 :=
      if e.slow_timer > 0 then
        let st := e.slow_timer - dt
        { e with slow_timer := st
                 slow_ratio := if st ≤ 0 then 1 else e.slow_ratio }
      else e
    if e1.poison_timer > 0 then
      let e2 := Enemy.hit (e1.poison_dmg * dt) { e1 with poison_timer := e1.poison_timer - dt }
      if e2.dead = true then e2 else Enemy.move hyp dt sm zm e2
    else
      Enemy.move hyp dt sm zm e1

/-! ### TrueBoss FSM (boss.py)

Constants from boss.py lines 23-66, and the `TrueBoss` class.  The boss's
`timers` dict keyed by the three skill states is modelled as three fields.
`_cast_attack` only mutates the external `game.grid` collaborator (it
touches no boss field); the grid side is modelled separately by `Grid`.
The random 50/50 pick between DEFENSE and ATTACK in `_try_skill` is
modelled by a boolean `rand` (`true` for `random.random() < 0.5`).
-/

def GLOBAL_SKILL_COOLDOWN : ℚ := 5
def INITIAL_SKILL_COOLDOWN : ℚ := 2
def DEFENSE_DAMAGE_REDUCTION : ℚ := 1/2
def DEFENSE_MOVE_SPEED_MULT : ℚ := 1/2
def HEAL_HP_PERCENT_PER_SEC : ℚ := 1/20
def HEAL_TRIGGER_THRESHOLD : ℚ := 4/5
def BOSS_MONEY_DROP : ℚ := 200

/-- The four FSM states of boss.py lines 15-18. -/
inductive BState where
  | idle
  | defense
  | attack
  | heal
deriving DecidableEq

/-- `SKILL_DURATION` (boss.py lines 51-55); the dict has no entry for IDLE
and is only ever read at the three skill states. -/
def SKILL_DURATION : BState → ℚ
  | .defense => 3
  | .attack => 1
  | .heal => 2
  | .idle => 0

structure TrueBoss extends Enemy where
  state : BState
  state_timer : ℚ
  tDef : ℚ
  tAtk : ℚ
  tHeal : ℚ
deriving DecidableEq

/-- `TrueBoss.__init__` (boss.py lines 81-97): Enemy fields plus IDLE
state and all three skill timers at `INITIAL_SKILL_COOLDOWN`. -/
def TrueBoss.init (path_points : List (ℚ × ℚ)) (hp speed : ℚ) : TrueBoss :=
  { Enemy.init path_points hp speed with
    money_drop := BOSS_MONEY_DROP
    state := .idle
    state_timer := 0
    tDef := INITIAL_SKILL_COOLDOWN
    tAtk := INITIAL_SKILL_COOLDOWN
    tHeal := INITIAL_SKILL_COOLDOWN }

/-- `TrueBoss.hit(dmg)` (boss.py lines 99-103): in DEFENSE the damage is
multiplied by `DEFENSE_DAMAGE_REDUCTION` before the base `Enemy.hit`. -/
def TrueBoss.hit (dmg : ℚ) (b : TrueBoss) : TrueBoss :=
  let dmg := if b.state = .defense then dmg * DEFENSE_DAMAGE_REDUCTION else dmg
  { b with toEnemy := Enemy.hit dmg b.toEnemy }

/-- The per-state cooldown decrement at the top of `TrueBoss.update`
(boss.py lines 111-112): every timer becomes `max(0, t - dt*speed_mult)`. -/
def TrueBoss.dec_timers (dt sm : ℚ) (b : TrueBoss) : TrueBoss :=
  { b with tDef := max 0 (b.tDef - dt * sm)
           tAtk := max 0 (b.tAtk - dt * sm)
           tHeal := max 0 (b.tHeal - dt * sm) }

/-- `TrueBoss._enter_state(new_state)` (boss.py lines 183-186). -/
def TrueBoss.enter_state (s : BState) (b : TrueBoss) : TrueBoss :=
  { b with state := s, state_timer := SKILL_DURATION s }

/-- `TrueBoss._try_skill` (boss.py lines 160-176): return unchanged unless
ALL three timers are ≤ 0; then HEAL when hp is below the threshold, else a
random choice between DEFENSE and ATTACK. -/
def TrueBoss.try_skill (rand : Bool) (b : TrueBoss) : TrueBoss :=
  if b.tDef > 0 ∨ b.tAtk > 0 ∨ b.tHeal > 0 then b
  else if b.hp < b.max_hp * HEAL_TRIGGER_THRESHOLD then b.enter_state .heal
  else if rand then b.enter_state .defense
  else b.enter_state .attack

/-- `TrueBoss._reset_all_timers` (boss.py lines 178-181). -/
def TrueBoss.reset_all_timers (b : TrueBoss) : TrueBoss :=
  { b with tDef := GLOBAL_SKILL_COOLDOWN
           tAtk := GLOBAL_SKILL_COOLDOWN
           tHeal := GLOBAL_SKILL_COOLDOWN }

/-- `TrueBoss.update(dt, speed_mult, zone_mult)` (boss.py lines 105-155):
decrement the cooldown timers and the state timer, then dispatch on the
FSM state.  `_state_attack`'s `_cast_attack` mutates only the external
grid, so on the boss it is the identity. -/
def TrueBoss.update (hyp : ℚ → ℚ → ℚ) (dt sm zm : ℚ) (rand : Bool) (b : TrueBoss) : TrueBoss :=
  if b.dead = true ∨ b.reached = true then b
  else
    let b := b.dec_timers dt sm
    let b := { b with state_timer := max 0 (b.state_timer - dt * sm) }
    match b.state with
    | .idle =>
        TrueBoss.try_skill rand { b with toEnemy := Enemy.update hyp dt sm zm b.toEnemy }
    | .defense =>
        let b := { b with toEnemy := Enemy.update hyp dt (sm * DEFENSE_MOVE_SPEED_MULT) zm b.toEnemy }
        if b.state_timer ≤ 0 then { b.reset_all_timers with state := .idle } else b
    | .attack =>
        if b.state_timer ≤ 0 then { b.reset_all_timers with state := .idle } else b
    | .heal =>
        let heal_rate := HEAL_HP_PERCENT_PER_SEC * b.max_hp
        let b := { b with hp := min b.max_hp (b.hp + heal_rate * dt * sm) }
        if b.state_timer ≤ 0 then { b.reset_all_timers with state := .idle } else b

/-! ### Die firing periods (dice.py)

`Die.set_level` (dice.py lines 60-66) clamps the level to
`[1, MAX_DIE_LEVEL]` and sets `base_period_sec = (BASE_FIRE_RATE / FPS) /
level`.  Each subclass's `set_level` override first calls the base method
and then reassigns `base_period_sec = base / self.level` with its own
level-1 base period: Single 0.45 (lines 193-199), Wind 0.3 (lines
240-244), Iron 1.5 (lines 278-282), Fire 0.8 (lines 336-343); Multi,
Freeze and Poison inherit the base method unchanged.
-/

inductive DieType where
  | single
  | multi
  | freeze
  | wind
  | poison
  | iron
  | fire
deriving DecidableEq

/-- The level-1 base period each variant's `set_level` divides by the
clamped level. -/
def die_base_period : DieType → ℚ
  | .single => 45/100
  | .wind => 3/10
  | .iron => 3/2
  | .fire => 4/5
  | _ => BASE_FIRE_RATE / FPS

/-- The clamp `self.level = max(1, min(MAX_DIE_LEVEL, lv))` in
`Die.set_level`. -/
def clamp_level (lv : ℤ) : ℤ := max 1 (min MAX_DIE_LEVEL lv)

/-- The value of `base_period_sec` after `set_level(lv)` on a die of the
given type. -/
def set_level_period (t : DieType) (lv : ℤ) : ℚ :=
  die_base_period t / (clamp_level lv : ℚ)

/-! ### InGameUpgrades (ingame_upgrades.py) -/

structure InGameUpgrades where
  damage_level : ℕ
  firerate_level : ℕ
  range_level : ℕ
deriving DecidableEq

def InGameUpgrades.init : InGameUpgrades :=
  { damage_level := 1, firerate_level := 1, range_level := 1 }

def MAX_UPGRADE_LEVEL : ℕ := 5

/-- `UPGRADE_COSTS.get(level, 0)` (ingame_upgrades.py lines 11-16 and the
`.get` default at line 56). -/
def UPGRADE_COSTS (lv : ℕ) : ℤ :=
  if lv = 1 then 50
  else if lv = 2 then 100
  else if lv = 3 then 200
  else if lv = 4 then 400
  else 0

/-- `InGameUpgrades._get_level(upgrade_type)` (lines 84-92); unknown kinds
fall through to 1. -/
def InGameUpgrades.get_level (u : InGameUpgrades) (t : String) : ℕ :=
  if t = "damage" then u.damage_level
  else if t = "firerate" then u.firerate_level
  else if t = "range" then u.range_level
  else 1

/-- `InGameUpgrades._set_level(upgrade_type, level)` (lines 94-102). -/
def InGameUpgrades.set_level (u : InGameUpgrades) (t : String) (lv : ℕ) : InGameUpgrades :=
  let lv := max 1 (min MAX_UPGRADE_LEVEL lv)
  if t = "damage" then { u with damage_level := lv }
  else if t = "firerate" then { u with firerate_level := lv }
  else if t = "range" then { u with range_level := lv }
  else u

/-- `InGameUpgrades.get_upgrade_cost(upgrade_type)` (lines 51-56). -/
def InGameUpgrades.get_upgrade_cost (u : InGameUpgrades) (t : String) : ℤ :=
  if MAX_UPGRADE_LEVEL ≤ u.get_level t then 0
  else UPGRADE_COSTS (u.get_level t)

/-- `InGameUpgrades.purchase_upgrade(upgrade_type, current_money)` (lines
63-82): returns the `(success, new_money, message)` triple together with
the (possibly unchanged) upgrade state. -/
def InGameUpgrades.purchase_upgrade (t : String) (current_money : ℤ) (u : InGameUpgrades) :
    (Bool × ℤ × String) × InGameUpgrades :=
  let current_level := u.get_level t
  if MAX_UPGRADE_LEVEL ≤ current_level then
    ((false, current_money, t ++ " is already at MAX level!"), u)
  else
    let cost := u.get_upgrade_cost t
    if current_money < cost then
      ((false, current_money, "Not enough money! Need $" ++ toString cost), u)
    else
      ((true, current_money - cost, t ++ " upgraded to Level " ++ toString (current_level + 1) ++ "!"),
        u.set_level t (current_level + 1))

/-! ### Grid (grid.py)

The cell payload (a die object) is an abstract type `α`.  Practice-mode
construction (`valid_cells = None`) keeps every in-range cell valid;
story-mode masks cells by the precomputed `valid_cells` set, modelled as a
coordinate list.  Python coordinates are arbitrary ints, so `c, r : ℤ`.
-/

structure Grid (α : Type) where
  cols : ℕ
  rows : ℕ
  valid_cells : Option (List (ℤ × ℤ))
  cells : List (List (Option α))
deriving DecidableEq

/-- `Grid.in_bounds(c, r)` (grid.py lines 87-93). -/
def Grid.in_bounds (g : Grid α) (c r : ℤ) : Bool :=
  let in_grid := 0 ≤ c ∧ c < (g.cols : ℤ) ∧ 0 ≤ r ∧ r < (g.rows : ℤ)
  if ¬in_grid then false
  else
    match g.valid_cells with
    | some vs => decide ((c, r) ∈ vs)
    | none => true

/-- `Grid.get(c, r)` (grid.py lines 104-107): `None` when out of bounds,
else `cells[c][r]`; `in_bounds` guarantees the indices are in range. -/
def Grid.get (g : Grid α) (c r : ℤ) : Option α :=
  if g.in_bounds c r = false then none
  else ((g.cells.getD c.toNat []).getD r.toNat none)

/-- `Grid.set(c, r, obj)` (grid.py lines 109-111): assign `cells[c][r]`
only when in bounds. -/
def Grid.set (g : Grid α) (c r : ℤ) (obj : Option α) : Grid α :=
  if g.in_bounds c r = true then
    { g with cells := g.cells.set c.toNat ((g.cells.getD c.toNat []).set r.toNat obj) }
  else g

/-- `Grid.remove(c, r)` (grid.py lines 113-114). -/
def Grid.remove (g : Grid α) (c r : ℤ) : Grid α :=
  g.set c r none

/-- The practice-mode grid of `Grid.__init__`: `GRID_COLS × GRID_ROWS`
empty cells, no valid-cell mask. -/
def Grid.initPractice : Grid ℕ :=
  { cols := GRID_COLS
    rows := GRID_ROWS
    valid_cells := none
    cells := List.replicate GRID_COLS (List.replicate GRID_ROWS none) }

/-! ### Wave scheduler (level_manager.py and main.py)

`LevelManager.wave_info` returns the Python 2-tuple `(base, is_boss)`.
`Game.start_wave` (main.py lines 688-722) destructures that return value
into THREE names (`count, is_boss, true_boss = self.level_mgr.wave_info(
self.wave + 1)`), so the tuple's runtime length matters: Python raises
`ValueError` when a 2-tuple meets a 3-name unpack.  The tuple is therefore
modelled as a list of dynamically-typed values.
-/

/-- A dynamically typed Python scalar, for tuple-unpack modelling. -/
inductive PyV where
  | int (n : ℤ)
  | bool (b : Bool)
deriving DecidableEq

/-- `LevelManager.wave_info(wave_idx)` (level_manager.py lines 44-47):
`base = WAVE_BASE_COUNT + wave_idx * (WAVE_GROWTH // 2)` and
`is_boss = wave_idx > 0 and wave_idx % 5 == 0`, returned as a 2-tuple.
(`WAVE_GROWTH // 2` is `1 // 2 = 0`.) -/
def wave_info (wave_idx : ℤ) : List PyV :=
  [PyV.int (WAVE_BASE_COUNT + wave_idx * (WAVE_GROWTH / 2)),
   PyV.bool (decide (wave_idx > 0 ∧ wave_idx % 5 = 0))]

/-- Python `int()` truncation toward zero; only applied to nonnegative
counts here. -/
def py_int (q : ℚ) : ℤ := q.num / (q.den : ℤ)

/-- The scheduler-relevant slice of the `Game` state (main.py
`reset_runtime`, lines 336-354).  `story_mode` stands for
`state == STATE_STORY and current_story_stage`; `difficulty` is
`self.level.difficulty`.  The telegraph list cleared by `start_wave` is
not modelled. -/
structure Game where
  story_mode : Bool
  wave : ℤ
  wave_timer : ℚ
  wave_delay : ℚ
  to_spawn : ℤ
  spawn_cd : ℚ
  is_big_enemy_wave : Bool
  is_true_boss_wave : Bool
  difficulty : ℚ
deriving DecidableEq

/-- The practice-mode rest state after `reset_runtime` (main.py lines
336-354): `wave = -1`, nothing to spawn, default 5-second inter-wave
delay, difficulty of the first level. -/
def Game.rest : Game :=
  { story_mode := false
    wave := -1
    wave_timer := 0
    wave_delay := 5
    to_spawn := 0
    spawn_cd := 0
    is_big_enemy_wave := false
    is_true_boss_wave := false
    difficulty := 1 }

/-- `Game.start_wave` (main.py lines 688-722).  The wave index and timer
are mutated first; the practice branch then executes the three-name
unpack of `wave_info`'s 2-tuple, which raises `ValueError` — modelled by
`Except.error`.  The (unreachable) success path follows main.py lines
709-722 literally. -/
def Game.start_wave (g : Game) : Except String Game :=
  let g := { g with wave := g.wave + 1, wave_timer := 0 }
  if g.story_mode = true then
    Except.ok { g with to_spawn := 25 + g.wave * 3, spawn_cd := 0 }
  else
    match wave_info (g.wave + 1) with
    | [PyV.int count, PyV.bool is_boss, PyV.bool true_boss] =>
        let count := if true_boss = true then 1 else py_int ((count : ℚ) * g.difficulty)
        Except.ok { g with
          is_big_enemy_wave := if true_boss = true then false else is_boss
          is_true_boss_wave := true_boss
          to_spawn := count
          spawn_cd := 0 }
    | _ => Except.error "ValueError: not enough values to unpack (expected 3, got 2)"

/-! ### Single-target projectile

Modelled from the spec: `projectiles.py` is imported by dice.py and the
tests but is not part of the source tree.  Spec §4.4 (single-target
variant): each frame the projectile homes toward the target's current
position by `speed * dt`; if the target has died or reached the goal
mid-flight the projectile is discarded without effect (no damage, no
crash); if the remaining distance is within `speed * dt` it impacts,
applying the full `hit(dmg)` to the target and signalling completion.
The update returns `(done, bullet, target)`.
-/

structure Bullet where
  x : ℚ
  y : ℚ
  dmg : ℚ
  base_speed : ℚ
deriving DecidableEq

/-- Modelled from the spec: one frame of single-target projectile flight
(spec §4.4 and §7(a)); `projectiles.py` itself is missing from the
source tree. -/
def Bullet.update (hyp : ℚ → ℚ → ℚ) (dt : ℚ) (b : Bullet) (target : Enemy) :
    Bool × Bullet × Enemy :=
  if target.dead = true ∨ target.reached = true then (true, b, target)
  else
    let dx := target.x - b.x
    let dy := target.y - b.y
    let dist := hyp dx dy
    let step := b.base_speed * dt
    if dist ≤ step then (true, { b with x := target.x, y := target.y }, Enemy.hit b.dmg target)
    else (false, { b with x := b.x + dx / dist * step, y := b.y + dy / dist * step }, target)

/-! ### Entity operation traces

The public operations of `Enemy` (enemy.py): `update`, `hit`,
`apply_slow`, `apply_poison`, reified so that whole lifetimes (operation
sequences) can be quantified over.
-/

inductive EnemyOp where
  | update (hyp : ℚ → ℚ → ℚ) (dt sm zm : ℚ)
  | hit (dmg : ℚ)
  | slow (ratio duration : ℚ)
  | poison (dmg duration : ℚ)

def EnemyOp.apply : EnemyOp → Enemy → Enemy
  | .update hyp dt sm zm, e => Enemy.update hyp dt sm zm e
  | .hit dmg, e => Enemy.hit dmg e
  | .slow r d, e => Enemy.apply_slow r d e
  | .poison dmg d, e => Enemy.apply_poison dmg d e

def applyOps (ops : List EnemyOp) (e : Enemy) : Enemy :=
  ops.foldl (fun e op => op.apply e) e

/-- A trace discipline matching how the game uses `hit`: damage is only
ever dealt to entities that have not reached the goal (towers and
projectiles skip `reached` targets, and reached entities are removed from
the active set). -/
def HitsNotReached : Enemy → List EnemyOp → Prop
  | _, [] => True
  | e, op :: rest =>
      (match op with
       | .hit _ => e.reached = false
       | _ => True) ∧ HitsNotReached (op.apply e) rest

/-! ### Validation of the embedding against the repository's tests

`test_enemy.py`'s poison and slow scenarios, reproduced on the embedding:
one `update(dt=0.5)` of a poisoned (10 dmg, 1s) enemy deals 5 damage and
halves the timer; a slowed (ratio 0.5, 1s) enemy with speed 10 moves 2.5
units in 0.5s.
-/

theorem enemy_update_matches_test_enemy_poison :
    (Enemy.update hypotQ (1/2) 1 1 (Enemy.apply_poison 10 1 (Enemy.init [(0,0),(100,0)] 100 10))).hp = 95
  ∧ (Enemy.update hypotQ (1/2) 1 1 (Enemy.apply_poison 10 1 (Enemy.init [(0,0),(100,0)] 100 10))).poison_timer = 1/2 := by
  with_unfolding_all decide

theorem enemy_update_matches_test_enemy_slow :
    (Enemy.update hypotQ (1/2) 1 1 (Enemy.apply_slow (1/2) 1 (Enemy.init [(0,0),(100,0)] 100 10))).x = 5/2
  ∧ (Enemy.update hypotQ (1/2) 1 1 (Enemy.apply_slow (1/2) 1 (Enemy.init [(0,0),(100,0)] 100 10))).slow_timer = 1/2 := by
  with_unfolding_all decide


/-! ### Helper lemmas -/

theorem append_right_ne_empty (s r : String) (hr : r.length ≠ 0) : s ++ r ≠ "" := by
  intro h
  have h2 := congrArg String.length h
  simp [String.length_append] at h2
  exact hr h2.2

theorem Enemy.hit_hp (d : ℚ) (e : Enemy) : (Enemy.hit d e).hp = e.hp - d := by
  unfold Enemy.hit
  dsimp only
  split <;> rfl

theorem Enemy.hit_reached (d : ℚ) (e : Enemy) : (Enemy.hit d e).reached = e.reached := by
  unfold Enemy.hit
  dsimp only
  split <;> rfl

/-! ### Claim theorems -/

/-- Claim C1: the spec says that with `wave == -1` one call to `start_wave`
increments the wave to 0 and computes `to_spawn` from the configured base
formula.  The code instead raises: `main.py` line 707 unpacks the result
of `wave_info` into three names, but `level_manager.py`'s `wave_info`
returns a 2-tuple, so the practice-mode branch of `start_wave` raises
`ValueError` before `to_spawn` is ever assigned.  This theorem evaluates
`Game.start_wave` at the rest state and shows the raise. -/
theorem start_wave_at_rest_raises_value_error :
    Game.start_wave Game.rest =
      Except.error "ValueError: not enough values to unpack (expected 3, got 2)" := by
  with_unfolding_all rfl

/-- Claim C3: slow and poison effects never stack additively and a weaker
re-application is absorbed: `apply_slow` keeps the stronger (smaller)
ratio and the longer duration, `apply_poison` keeps the larger damage and
the longer duration; in particular applying slow(0.8, 1s) after
slow(0.5, 2s) leaves ratio 0.5 and timer 2s. -/
theorem apply_slow_apply_poison_absorb_weaker (e : Enemy) (r d pd pt : ℚ) :
    (Enemy.apply_slow r d e).slow_ratio = min e.slow_ratio r
  ∧ (Enemy.apply_slow r d e).slow_timer = max e.slow_timer d
  ∧ (Enemy.apply_poison pd pt e).poison_dmg = max e.poison_dmg pd
  ∧ (Enemy.apply_poison pd pt e).poison_timer = max e.poison_timer pt
  ∧ (Enemy.apply_slow (4/5) 1 (Enemy.apply_slow (1/2) 2 (Enemy.init [(0,0),(100,0)] 100 10))).slow_ratio = 1/2
  ∧ (Enemy.apply_slow (4/5) 1 (Enemy.apply_slow (1/2) 2 (Enemy.init [(0,0),(100,0)] 100 10))).slow_timer = 2 :=
  ⟨rfl, rfl, rfl, rfl, by with_unfolding_all decide, by with_unfolding_all decide⟩

/-- Claim C5: while the TrueBoss is in DEFENSE, incoming damage is
multiplied by the 50% reduction factor before the base `Enemy.hit` logic
applies, so `hit(100)` removes exactly 50 hp. -/
theorem trueBoss_defense_halves_damage (b : TrueBoss) (dmg : ℚ)
    (h : b.state = BState.defense) :
    TrueBoss.hit dmg b = { b with toEnemy := Enemy.hit (dmg * DEFENSE_DAMAGE_REDUCTION) b.toEnemy }
  ∧ (TrueBoss.hit 100 b).hp = b.hp - 50 := by
  constructor
  · unfold TrueBoss.hit
    rw [if_pos h]
  · unfold TrueBoss.hit
    rw [if_pos h]
    have h50 : (100 : ℚ) * DEFENSE_DAMAGE_REDUCTION = 50 := by
      norm_num [DEFENSE_DAMAGE_REDUCTION]
    show (Enemy.hit (100 * DEFENSE_DAMAGE_REDUCTION) b.toEnemy).hp = b.hp - 50
    rw [Enemy.hit_hp, h50]

/-- Sample boss for the C5 witness: hp 1000, forced into DEFENSE. -/
def bossSampleDefense : TrueBoss :=
  { TrueBoss.init [(0,0),(100,0)] 1000 10 with state := BState.defense }

/-- Witness for C5: the boss at hp = 1000 in DEFENSE receiving `hit(100)`
ends at hp 950. -/
theorem trueBoss_defense_halves_damage_witness :
    bossSampleDefense.state = BState.defense
  ∧ (TrueBoss.hit 100 bossSampleDefense).hp = 950 :=
  ⟨rfl, ((trueBoss_defense_halves_damage bossSampleDefense 100 rfl).2).trans
    (by with_unfolding_all decide)⟩

/-- Claim C6: movement follows the step formula `speed * slow_ratio *
speed_mult * zone_mult * dt`: an entity with hp = 100, speed = 10, no
status effects, on path [(0,0),(100,0)], after a single `update(dt=5)`
with multipliers 1.0 has moved by step `10 * 1 * 1 * 1 * 5 = 50 < 100` to
x = 50, with `idx` unchanged and `reached = false`. -/
theorem enemy_update_follows_step_formula :
    (Enemy.update hypotQ 5 1 1 (Enemy.init [(0,0),(100,0)] 100 10)).x = 50
  ∧ (Enemy.update hypotQ 5 1 1 (Enemy.init [(0,0),(100,0)] 100 10)).y = 0
  ∧ (Enemy.update hypotQ 5 1 1 (Enemy.init [(0,0),(100,0)] 100 10)).idx = 0
  ∧ (Enemy.update hypotQ 5 1 1 (Enemy.init [(0,0),(100,0)] 100 10)).reached = false := by
  with_unfolding_all decide

/-- Claim C8: an upgrade purchase with insufficient funds is rejected
atomically: whenever `money` is below the next-level cost,
`purchase_upgrade` returns `success = false`, the unchanged money amount
and a non-empty user-facing message, and the upgrade levels are not
mutated.  (The result always has the `(success, new_money, message)`
shape by construction.) -/
theorem purchase_upgrade_insufficient_funds_rejected (t : String) (money : ℤ)
    (u : InGameUpgrades) (h : money < u.get_upgrade_cost t) :
    (InGameUpgrades.purchase_upgrade t money u).1.1 = false
  ∧ (InGameUpgrades.purchase_upgrade t money u).1.2.1 = money
  ∧ (InGameUpgrades.purchase_upgrade t money u).1.2.2 ≠ ""
  ∧ (InGameUpgrades.purchase_upgrade t money u).2 = u := by
  unfold InGameUpgrades.purchase_upgrade
  by_cases hm : MAX_UPGRADE_LEVEL ≤ u.get_level t
  · rw [if_pos hm]
    exact ⟨rfl, rfl, append_right_ne_empty _ _ (by decide), rfl⟩
  · rw [if_neg hm]
    rw [if_pos h]
    refine ⟨rfl, rfl, ?_, rfl⟩
    intro hEq
    have h2 := congrArg String.length hEq
    simp [String.length_append] at h2
    exact absurd h2.1 (by decide)

/-- Witness for C8: buying the damage upgrade with 10 money (cost 50) is
rejected with the money and levels unchanged. -/
theorem purchase_upgrade_insufficient_funds_rejected_witness :
    (10 : ℤ) < InGameUpgrades.init.get_upgrade_cost "damage"
  ∧ ((InGameUpgrades.purchase_upgrade "damage" 10 InGameUpgrades.init).1.1 = false
     ∧ (InGameUpgrades.purchase_upgrade "damage" 10 InGameUpgrades.init).1.2.1 = 10
     ∧ (InGameUpgrades.purchase_upgrade "damage" 10 InGameUpgrades.init).1.2.2 ≠ ""
     ∧ (InGameUpgrades.purchase_upgrade "damage" 10 InGameUpgrades.init).2 = InGameUpgrades.init) :=
  ⟨by with_unfolding_all decide,
   purchase_upgrade_insufficient_funds_rejected "damage" 10 InGameUpgrades.init
     (by with_unfolding_all decide)⟩

/-- Claim C9: for every die type, the base firing period after
`set_level` is strictly positive and monotonically non-increasing in the
level, for all levels `1 ≤ l1 ≤ l2 ≤ MAX_DIE_LEVEL`. -/
theorem set_level_period_pos_and_antitone (t : DieType) (l1 l2 : ℤ)
    (h1 : 1 ≤ l1) (h12 : l1 ≤ l2) (h2 : l2 ≤ MAX_DIE_LEVEL) :
    0 < set_level_period t l1
  ∧ 0 < set_level_period t l2
  ∧ set_level_period t l2 ≤ set_level_period t l1 := by
  have hc1 : clamp_level l1 = l1 := by
    unfold clamp_level MAX_DIE_LEVEL at *
    omega
  have hc2 : clamp_level l2 = l2 := by
    unfold clamp_level MAX_DIE_LEVEL at *
    omega
  have hb : 0 < die_base_period t := by
    cases t <;> norm_num [die_base_period, BASE_FIRE_RATE, FPS]
  have hl1 : (0 : ℚ) < (l1 : ℚ) := by
    exact_mod_cast lt_of_lt_of_le Int.zero_lt_one h1
  have hl2 : (0 : ℚ) < (l2 : ℚ) := by
    exact_mod_cast lt_of_lt_of_le Int.zero_lt_one (le_trans h1 h12)
  have hle : (l1 : ℚ) ≤ (l2 : ℚ) := by exact_mod_cast h12
  unfold set_level_period
  rw [hc1, hc2]
  refine ⟨div_pos hb hl1, div_pos hb hl2, ?_⟩
  gcongr

/-- Witness for C9: the single die's period at level 3 is positive and no
larger than at level 2. -/
theorem set_level_period_pos_and_antitone_witness :
    ((1 : ℤ) ≤ 2 ∧ (2 : ℤ) ≤ 3 ∧ (3 : ℤ) ≤ MAX_DIE_LEVEL)
  ∧ (0 < set_level_period DieType.single 2
     ∧ 0 < set_level_period DieType.single 3
     ∧ set_level_period DieType.single 3 ≤ set_level_period DieType.single 2) :=
  ⟨by with_unfolding_all decide,
   set_level_period_pos_and_antitone DieType.single 2 3
     (by with_unfolding_all decide) (by with_unfolding_all decide)
     (by with_unfolding_all decide)⟩

/-- Claim C10: grid cell access is total at the public interface: for
every coordinate pair, in particular out-of-bounds coordinates and cells
excluded from the valid-cell mask (both are exactly `in_bounds = false`),
`get` returns `none` and `set` / `remove` leave the grid unchanged. -/
theorem grid_access_total_out_of_bounds {α : Type} (g : Grid α) (c r : ℤ)
    (obj : Option α) (h : g.in_bounds c r = false) :
    g.get c r = none ∧ g.set c r obj = g ∧ g.remove c r = g := by
  have hset : g.set c r obj = g := by
    unfold Grid.set
    rw [if_neg (by simp [h])]
  have hrem : g.remove c r = g := by
    unfold Grid.remove Grid.set
    rw [if_neg (by simp [h])]
  refine ⟨?_, hset, hrem⟩
  unfold Grid.get
  rw [if_pos h]

/-- Witness for C10: the practice grid rejects column -1 silently. -/
theorem grid_access_total_out_of_bounds_witness :
    Grid.initPractice.in_bounds (-1) 0 = false
  ∧ (Grid.initPractice.get (-1) 0 = none
     ∧ Grid.initPractice.set (-1) 0 (some 3) = Grid.initPractice
     ∧ Grid.initPractice.remove (-1) 0 = Grid.initPractice) :=
  ⟨by with_unfolding_all decide,
   grid_access_total_out_of_bounds Grid.initPractice (-1) 0 (some 3)
     (by with_unfolding_all decide)⟩

/-- Claim C7: a single-target projectile whose target has died or reached
the goal before impact is discarded without effect — it signals
completion, applies no damage (the target is returned unchanged) and
raises no error; only when the target is still live and within the
frame's travel distance does the impact apply `hit(dmg)` to it. -/
theorem bullet_dead_or_reached_target_discarded (hyp : ℚ → ℚ → ℚ) (dt : ℚ)
    (b : Bullet) (target : Enemy) :
    (target.dead = true ∨ target.reached = true →
       Bullet.update hyp dt b target = (true, b, target))
  ∧ (target.dead = false → target.reached = false →
       hyp (target.x - b.x) (target.y - b.y) ≤ b.base_speed * dt →
       Bullet.update hyp dt b target =
         (true, { b with x := target.x, y := target.y }, Enemy.hit b.dmg target)) := by
  constructor
  · intro h
    unfold Bullet.update
    rw [if_pos h]
  · intro h1 h2 h3
    unfold Bullet.update
    rw [if_neg (by simp [h1, h2])]
    dsimp only
    rw [if_pos h3]

/-- Sample projectile and already-dead target for the C7 witness. -/
def bulletSample : Bullet := { x := 0, y := 0, dmg := 5, base_speed := 10 }

/-- Already-dead target for the C7 witness. -/
def deadTargetSample : Enemy := { Enemy.init [(0,0),(1,0)] 1 1 with dead := true }

/-- Witness for C7: firing at a target that has died leaves the target
untouched and discards the projectile. -/
theorem bullet_dead_or_reached_target_discarded_witness :
    (deadTargetSample.dead = true ∨ deadTargetSample.reached = true)
  ∧ Bullet.update hypotQ 1 bulletSample deadTargetSample = (true, bulletSample, deadTargetSample) :=
  ⟨Or.inl rfl,
   (bullet_dead_or_reached_target_discarded hypotQ 1 bulletSample deadTargetSample).1 (Or.inl rfl)⟩

theorem Enemy.move_dead (hyp : ℚ → ℚ → ℚ) (dt sm zm : ℚ) (e : Enemy) :
    (Enemy.move hyp dt sm zm e).dead = e.dead := by
  unfold Enemy.move
  dsimp only
  split
  · rfl
  · split <;> rfl

theorem applyOps_nil (e : Enemy) : applyOps [] e = e := rfl

theorem applyOps_cons (op : EnemyOp) (ops : List EnemyOp) (e : Enemy) :
    applyOps (op :: ops) e = applyOps ops (op.apply e) := rfl

/-- One `Enemy.update` step cannot make `reached` and `dead` both true:
`update` returns immediately on dead or reached entities, the poison tick
returns before movement when it kills, and movement never touches
`dead`. -/
theorem Enemy.update_flags_exclusive (hyp : ℚ → ℚ → ℚ) (dt sm zm : ℚ) (e : Enemy)
    (h : e.reached = false ∨ e.dead = false) :
    (Enemy.update hyp dt sm zm e).reached = false ∨ (Enemy.update hyp dt sm zm e).dead = false := by
  unfold Enemy.update
  by_cases hg : e.dead = true ∨ e.reached = true ∨ e.path.length ≤ e.idx + 1
  · rw [if_pos hg]
    exact h
  · rw [if_neg hg]
    have hd : e.dead = false := by
      rcases not_or.mp hg with ⟨hd, _⟩
      simpa using hd
    have hr : e.reached = false := by
      rcases not_or.mp hg with ⟨_, hg2⟩
      simpa using (not_or.mp hg2).1
    dsimp only
    split_ifs <;>
      first
      | exact Or.inl (by rw [Enemy.hit_reached]; exact hr)
      | exact Or.inr (by rw [Enemy.move_dead]; exact hd)
      | · right
          rw [Enemy.move_dead]
          rename_i hne
          simpa using hne

/-- Claim C4 counterexample: the claim quantifies over ALL sequences of
the public operations, but `Enemy.hit` checks only hp, not `reached`: on
the path [(0,0),(1,0)] an entity with hp = 1, speed = 1 reaches the goal
after `update(dt=1)`, and a subsequent `hit(1)` drops hp to 0 and sets
`dead`, leaving `reached` and `dead` both true. -/
theorem hit_after_reached_sets_both_flags :
    (Enemy.hit 1 (Enemy.update hypotQ 1 1 1 (Enemy.init [(0,0),(1,0)] 1 1))).reached = true
  ∧ (Enemy.hit 1 (Enemy.update hypotQ 1 1 1 (Enemy.init [(0,0),(1,0)] 1 1))).dead = true := by
  with_unfolding_all decide

/-- Claim C4 (amended): `reached` and `dead` stay mutually exclusive over
every operation sequence in which `hit` is only applied to entities that
have not reached the goal — which is how the game applies damage
(targeting and projectiles skip reached entities); a `hit` on an
already-reached entity is the one way to set both flags. -/
theorem reached_dead_exclusive_on_guarded_traces (e : Enemy) (ops : List EnemyOp)
    (h0 : e.reached = false ∨ e.dead = false) (hg : HitsNotReached e ops) :
    (applyOps ops e).reached = false ∨ (applyOps ops e).dead = false := by
  induction ops generalizing e with
  | nil => simpa [applyOps] using h0
  | cons op rest ih =>
      rw [applyOps_cons]
      simp only [HitsNotReached] at hg
      obtain ⟨hop, hrest⟩ := hg
      refine ih (op.apply e) ?_ hrest
      cases op with
      | update hyp dt sm zm => exact Enemy.update_flags_exclusive hyp dt sm zm e h0
      | hit d =>
          left
          show (Enemy.hit d e).reached = false
          rw [Enemy.hit_reached]
          exact hop
      | slow r d => exact h0
      | poison pd pt => exact h0

/-- Witness for the amended C4: a guarded trace (hit while alive, then an
update) keeps the flags mutually exclusive. -/
theorem reached_dead_exclusive_on_guarded_traces_witness :
    ((Enemy.init [(0,0),(1,0)] 1 1).reached = false ∨ (Enemy.init [(0,0),(1,0)] 1 1).dead = false)
  ∧ HitsNotReached (Enemy.init [(0,0),(1,0)] 1 1) [EnemyOp.hit 1, EnemyOp.update hypotQ 1 1 1]
  ∧ ((applyOps [EnemyOp.hit 1, EnemyOp.update hypotQ 1 1 1] (Enemy.init [(0,0),(1,0)] 1 1)).reached = false
     ∨ (applyOps [EnemyOp.hit 1, EnemyOp.update hypotQ 1 1 1] (Enemy.init [(0,0),(1,0)] 1 1)).dead = false) :=
  ⟨Or.inl rfl, ⟨rfl, trivial, trivial⟩,
   reached_dead_exclusive_on_guarded_traces (Enemy.init [(0,0),(1,0)] 1 1)
     [EnemyOp.hit 1, EnemyOp.update hypotQ 1 1 1] (Or.inl rfl) ⟨rfl, trivial, trivial⟩⟩

theorem TrueBoss.dec_timers_state (dt sm : ℚ) (b : TrueBoss) :
    (TrueBoss.dec_timers dt sm b).state = b.state := rfl

theorem TrueBoss.dec_timers_state_timer (dt sm : ℚ) (b : TrueBoss) :
    (TrueBoss.dec_timers dt sm b).state_timer = b.state_timer := rfl

theorem TrueBoss.dec_timers_tDef (dt sm : ℚ) (b : TrueBoss) :
    (TrueBoss.dec_timers dt sm b).tDef = max 0 (b.tDef - dt * sm) := rfl

theorem TrueBoss.dec_timers_tAtk (dt sm : ℚ) (b : TrueBoss) :
    (TrueBoss.dec_timers dt sm b).tAtk = max 0 (b.tAtk - dt * sm) := rfl

theorem TrueBoss.dec_timers_tHeal (dt sm : ℚ) (b : TrueBoss) :
    (TrueBoss.dec_timers dt sm b).tHeal = max 0 (b.tHeal - dt * sm) := rfl

/-- Claim C2: the TrueBoss obeys a shared global cooldown.
(i) `_try_skill` is a no-op while any of the three timers is positive, so
a skill state is entered only when all three are ≤ 0;
(ii) at the `update` level, leaving IDLE for a skill state requires all
three freshly decremented timers (which are clamped at 0) to be exactly 0;
(iii) whenever a skill state ends (the state returns to IDLE), all three
timers of the resulting boss equal `GLOBAL_SKILL_COOLDOWN`
simultaneously, so no skill can be re-entered until all three reach 0
again. -/
theorem trueBoss_shared_global_cooldown (hyp : ℚ → ℚ → ℚ) (dt sm zm : ℚ)
    (rand : Bool) (b : TrueBoss) :
    ((b.tDef > 0 ∨ b.tAtk > 0 ∨ b.tHeal > 0) → TrueBoss.try_skill rand b = b)
  ∧ (b.state = BState.idle → (TrueBoss.update hyp dt sm zm rand b).state ≠ BState.idle →
       (b.dec_timers dt sm).tDef = 0 ∧ (b.dec_timers dt sm).tAtk = 0
       ∧ (b.dec_timers dt sm).tHeal = 0)
  ∧ (b.state ≠ BState.idle → (TrueBoss.update hyp dt sm zm rand b).state = BState.idle →
       (TrueBoss.update hyp dt sm zm rand b).tDef = GLOBAL_SKILL_COOLDOWN
       ∧ (TrueBoss.update hyp dt sm zm rand b).tAtk = GLOBAL_SKILL_COOLDOWN
       ∧ (TrueBoss.update hyp dt sm zm rand b).tHeal = GLOBAL_SKILL_COOLDOWN) := by
  refine ⟨?_, ?_, ?_⟩
  · intro h
    unfold TrueBoss.try_skill
    rw [if_pos h]
  · intro hidle hne
    unfold TrueBoss.update at hne
    by_cases hdr : b.dead = true ∨ b.reached = true
    · rw [if_pos hdr] at hne
      exact absurd hidle hne
    · rw [if_neg hdr] at hne
      dsimp only at hne
      rw [TrueBoss.dec_timers_state, hidle] at hne
      dsimp only at hne
      by_cases hgate : max 0 (b.tDef - dt * sm) > 0 ∨ max 0 (b.tAtk - dt * sm) > 0
          ∨ max 0 (b.tHeal - dt * sm) > 0
      · unfold TrueBoss.try_skill at hne
        dsimp only at hne
        rw [TrueBoss.dec_timers_tDef, TrueBoss.dec_timers_tAtk,
            TrueBoss.dec_timers_tHeal] at hne
        rw [if_pos hgate] at hne
        dsimp only at hne
        exact absurd rfl hne
      · push_neg at hgate
        obtain ⟨g1, g2, g3⟩ := hgate
        rw [TrueBoss.dec_timers_tDef, TrueBoss.dec_timers_tAtk, TrueBoss.dec_timers_tHeal]
        exact ⟨le_antisymm g1 (le_max_left _ _), le_antisymm g2 (le_max_left _ _),
               le_antisymm g3 (le_max_left _ _)⟩
  · intro hstate hres
    unfold TrueBoss.update at hres ⊢
    by_cases hdr : b.dead = true ∨ b.reached = true
    · rw [if_pos hdr] at hres
      exact absurd hres hstate
    · rw [if_neg hdr] at hres ⊢
      dsimp only at hres ⊢
      rw [TrueBoss.dec_timers_state] at hres ⊢
      cases hbs : b.state with
      | idle => exact absurd hbs hstate
      | defense =>
          rw [hbs] at hres
          try dsimp only at hres ⊢
          rw [TrueBoss.dec_timers_state_timer] at hres ⊢
          by_cases ht : max 0 (b.state_timer - dt * sm) ≤ 0
          · rw [if_pos ht]
            exact ⟨rfl, rfl, rfl⟩
          · rw [if_neg ht] at hres
            try dsimp only at hres
            exact absurd hres (by decide)
      | attack =>
          rw [hbs] at hres
          try dsimp only at hres ⊢
          rw [TrueBoss.dec_timers_state_timer] at hres ⊢
          by_cases ht : max 0 (b.state_timer - dt * sm) ≤ 0
          · rw [if_pos ht]
            exact ⟨rfl, rfl, rfl⟩
          · rw [if_neg ht] at hres
            try dsimp only at hres
            exact absurd hres (by decide)
      | heal =>
          rw [hbs] at hres
          try dsimp only at hres ⊢
          rw [TrueBoss.dec_timers_state_timer] at hres ⊢
          by_cases ht : max 0 (b.state_timer - dt * sm) ≤ 0
          · rw [if_pos ht]
            exact ⟨rfl, rfl, rfl⟩
          · rw [if_neg ht] at hres
            try dsimp only at hres
            exact absurd hres (by decide)

/-- Sample boss for the C2 witness: mid-HEAL with the heal duration about
to expire. -/
def bossSampleHeal : TrueBoss :=
  { TrueBoss.init [(0,0),(100,0)] 1000 10 with
    state := BState.heal, state_timer := 1, tDef := 0, tAtk := 0, tHeal := 0 }

/-- Witness for C2: when the sample boss's HEAL state ends, all three
skill timers are simultaneously reset to the shared global cooldown. -/
theorem trueBoss_shared_global_cooldown_witness :
    bossSampleHeal.state ≠ BState.idle
  ∧ ((TrueBoss.update hypotQ 2 1 1 true bossSampleHeal).tDef = GLOBAL_SKILL_COOLDOWN
     ∧ (TrueBoss.update hypotQ 2 1 1 true bossSampleHeal).tAtk = GLOBAL_SKILL_COOLDOWN
     ∧ (TrueBoss.update hypotQ 2 1 1 true bossSampleHeal).tHeal = GLOBAL_SKILL_COOLDOWN) :=
  ⟨by with_unfolding_all decide,
   (trueBoss_shared_global_cooldown hypotQ 2 1 1 true bossSampleHeal).2.2
     (by with_unfolding_all decide) (by with_unfolding_all decide)⟩

end RD
